import Mathlib

/-!
Verification development for the wrappe packer (src/src) and its embedded
runner startpe (src/startpe).  Rust definitions are shallowly embedded:
bytes are Nat values, packed records are serialized as little-endian byte
lists, fallible code returns Except, and external collaborators (the zstd
codec and the xxHash64 hasher) are parameters of the embedded functions.
-/

set_option maxRecDepth 8000
set_option maxHeartbeats 1000000

/-- Byte slice of a list: n bytes starting at index i (drop then take). -/
def sliceAt (l : List Nat) (i n : Nat) : List Nat :=
  (l.drop i).take n

/-- Little-endian serialization of a value into w bytes. -/
def leBytes : Nat → Nat → List Nat
  | 0, _ => []
  | w + 1, v => v % 256 :: leBytes w (v / 256)

/-- A streaming hasher interface: the shape of twox_hash XxHash64 as used by
both compress.rs and decompress.rs (with_seed, write, finish). -/
structure HasherImpl (σ : Type) where
  initH : Nat → σ
  writeH : σ → List Nat → σ
  finishH : σ → Nat

/-- Laws every streaming hasher satisfies: writing a concatenation equals
two consecutive writes, and writing nothing is a no-op. -/
def HasherLaw {σ : Type} (H : HasherImpl σ) : Prop :=
  (∀ s a b, H.writeH (H.writeH s a) b = H.writeH s (a ++ b)) ∧
  (∀ s, H.writeH s [] = s)

/-- Hash of a whole byte list under seed: finish (write (with_seed seed) bs). -/
def hashBytes {σ : Type} (H : HasherImpl σ) (seed : Nat) (bs : List Nat) : Nat :=
  H.finishH (H.writeH (H.initH seed) bs)

namespace wrappe

/-- src/src/compress.rs line 27. -/
def HASH_SEED : Nat := 1246736989840

/-- src/src/types.rs line 3. -/
def WRAPPE_FORMAT : Nat := 200

/-- src/src/types.rs line 4. -/
def NAME_SIZE : Nat := 128

/-- Modelled from the spec: the packer constant WRAPPE_SIGNATURE is used in
src/src/main.rs line 373 but is not defined anywhere under src/; the spec
gives the signature bytes 0x50 0x45 0x33 0x44 0x41 0x54 0x41 0x00. -/
def WRAPPE_SIGNATURE : List Nat := [0x50, 0x45, 0x33, 0x44, 0x41, 0x54, 0x41, 0x00]

/-- src/src/types.rs lines 22-31: the packer PayloadHeader struct, in
declared field order (kind first, three usize counts, two u64 values;
there is no dictionary_size and no sections_size field). -/
structure PayloadHeader where
  kind : Nat
  directory_sections : Nat
  file_sections : Nat
  symlink_sections : Nat
  section_hash : Nat
  payload_size : Nat

/-- Packed little-endian serialization of the packer PayloadHeader
(repr C packed + zerocopy AsBytes, usize is 8 bytes on a 64-bit build). -/
def payloadHeaderBytes (h : PayloadHeader) : List Nat :=
  [h.kind % 256] ++ leBytes 8 h.directory_sections ++ leBytes 8 h.file_sections ++
    leBytes 8 h.symlink_sections ++ leBytes 8 h.section_hash ++ leBytes 8 h.payload_size

/-- src/src/compress.rs lines 583-598: the bytes appended to the archive
after the payload blob: the dictionary followed by the raw directory, file
and symlink section records (no encoder is applied to the section bytes). -/
def sectionsRawBytes (dirs files links : List (List Nat)) : List Nat :=
  dirs.flatten ++ files.flatten ++ links.flatten

/-- src/src/compress.rs lines 583-609: the whole tail written after the
payload blob: dictionary, raw section records, then the packed trailer. -/
def writeTail (dict : List Nat) (dirs files links : List (List Nat))
    (hdr : PayloadHeader) : List Nat :=
  dict ++ sectionsRawBytes dirs files links ++ payloadHeaderBytes hdr

end wrappe

namespace startpe

/-- src/startpe/src/decompress.rs line 23. -/
def HASH_SEED : Nat := 1246736989840

/-- src/startpe/src/types.rs line 3. -/
def WRAPPE_FORMAT : Nat := 203

/-- src/startpe/src/types.rs line 4. -/
def WRAPPE_SIGNATURE_1 : List Nat := [0x50, 0x45, 0x33, 0x44, 0x00, 0x00]

/-- src/startpe/src/types.rs line 5. -/
def WRAPPE_SIGNATURE_2 : List Nat := [0x41, 0x54, 0x41, 0x00]

/-- src/startpe/src/main.rs lines 103-105: the signature pattern the runner
assembles: the first four bytes of WRAPPE_SIGNATURE_1 followed by the first
four bytes of WRAPPE_SIGNATURE_2. -/
def signatureBytes : List Nat :=
  WRAPPE_SIGNATURE_1.take 4 ++ WRAPPE_SIGNATURE_2.take 4

/-- src/startpe/src/types.rs lines 30-39: the runner PayloadHeader struct,
in declared field order (seven u64 fields, then the kind byte). -/
structure PayloadHeader where
  directory_sections : Nat
  file_sections : Nat
  symlink_sections : Nat
  dictionary_size : Nat
  section_hash : Nat
  payload_size : Nat
  sections_size : Nat
  kind : Nat

/-- Packed little-endian layout of the runner PayloadHeader
(repr C packed + zerocopy FromBytes). -/
def payloadHeaderBytes (h : PayloadHeader) : List Nat :=
  leBytes 8 h.directory_sections ++ leBytes 8 h.file_sections ++
    leBytes 8 h.symlink_sections ++ leBytes 8 h.dictionary_size ++
    leBytes 8 h.section_hash ++ leBytes 8 h.payload_size ++
    leBytes 8 h.sections_size ++ [h.kind % 256]

/-- size_of PayloadHeader on the runner side: 7 * 8 + 1. -/
def payloadHeaderSize : Nat := 57

/-- src/startpe/src/decompress.rs lines 82-86: the sections region the
runner decodes: sections_size bytes immediately before the trailer. -/
def sectionsRegion (m : List Nat) (sections_size : Nat) : List Nat :=
  sliceAt m (m.length - payloadHeaderSize - sections_size) sections_size

/-- src/startpe/src/main.rs lines 126-134: validation of the starter info
record: the signature bytes must equal the assembled pattern and the
wrappe_format byte must equal the runner WRAPPE_FORMAT constant. -/
def checkInfo (sig : List Nat) (fmt : Nat) : Except String Unit :=
  if sig ≠ signatureBytes then .error "file signature is invalid"
  else if fmt ≠ WRAPPE_FORMAT then
    .error "runner version differs from wrapper version"
  else .ok ()

end startpe

namespace wrappe

/-- Zero padding of a basename into the fixed 128-byte name field
(src/src/compress.rs lines 209-210 and analogous sites). -/
def nameField (name : List Nat) : List Nat :=
  name ++ List.replicate (NAME_SIZE - name.length) 0

/-- src/src/types.rs lines 38-42: packed DirectorySection bytes:
128 name bytes followed by the parent index as u32. -/
def dirSectionBytes (name : List Nat) (parent : Nat) : List Nat :=
  nameField name ++ leBytes 4 parent

end wrappe

/-- Concrete single-directory section record (name "a", parent 0) used to
evaluate the section emission of compress.rs. -/
def c3rec : List Nat := wrappe.dirSectionBytes [0x61] 0

/-- Concrete trailer value for a package holding one directory record. -/
def c3hdr : wrappe.PayloadHeader :=
  { kind := 0, directory_sections := 1, file_sections := 0,
    symlink_sections := 0, section_hash := 0, payload_size := 0 }

/-- C3: Section-table encoding fails as claimed: for a package holding one
directory record the packer appends the raw 132-byte record itself (first
byte 0x61, the name byte) with no encoder applied, immediately followed by
its 41-byte trailer, while the runner zstd-decompresses a sections_size
sized region located through a 57-byte trailer; the packer writes neither
a zstd-encoded buffer nor a sections_size field. -/
theorem c3_sections_written_raw :
    wrappe.writeTail [] [c3rec] [] [] c3hdr =
      c3rec ++ wrappe.payloadHeaderBytes c3hdr ∧
    c3rec.length = 132 ∧
    c3rec.head? = some 0x61 ∧
    (wrappe.payloadHeaderBytes c3hdr).length = 41 ∧
    startpe.payloadHeaderSize = 57 := by
  refine ⟨rfl, by rfl, by rfl, by rfl, rfl⟩

/-- C4: Trailer layout fails as claimed: the packer trailer
(src/src/types.rs lines 22-31) is 41 bytes with the kind byte first,
followed by the three count fields and only section_hash and payload_size
(no dictionary_size, no sections_size), while the runner trailer
(src/startpe/src/types.rs lines 30-39) is 57 bytes holding seven u64
fields with the kind byte last. -/
theorem c4_trailer_layouts_differ :
    (wrappe.payloadHeaderBytes
        { kind := 9, directory_sections := 1, file_sections := 2,
          symlink_sections := 3, section_hash := 4, payload_size := 5 }).length = 41 ∧
    (wrappe.payloadHeaderBytes
        { kind := 9, directory_sections := 1, file_sections := 2,
          symlink_sections := 3, section_hash := 4, payload_size := 5 }).head? = some 9 ∧
    (startpe.payloadHeaderBytes
        { directory_sections := 1, file_sections := 2, symlink_sections := 3,
          dictionary_size := 4, section_hash := 5, payload_size := 6,
          sections_size := 7, kind := 9 }).length = 57 ∧
    (startpe.payloadHeaderBytes
        { directory_sections := 1, file_sections := 2, symlink_sections := 3,
          dictionary_size := 4, section_hash := 5, payload_size := 6,
          sections_size := 7, kind := 9 }).getLast? = some 9 ∧
    startpe.payloadHeaderSize = 57 ∧ (41 : Nat) < 57 := by
  refine ⟨by rfl, by rfl, by rfl, by rfl, rfl, by decide⟩

/-- C1: Round-trip fidelity fails on this code: the packer writes starter
info with wrappe_format = 200 (src/src/types.rs line 3, src/src/main.rs
line 386) while the runner accepts only 203, so the runner of every
produced package panics at the format gate before any extraction; no
target directory matching the source is ever produced. -/
theorem c1_packed_package_never_extracts :
    startpe.checkInfo wrappe.WRAPPE_SIGNATURE wrappe.WRAPPE_FORMAT =
      Except.error "runner version differs from wrapper version" := by
  rfl

/-- C2: Format gating fails as claimed: the packer stores wrappe_format =
200 while the runner constant is 203, so the stored byte never equals the
runner constant and the gate rejects every packer-written package; the
runner-side gate itself passes exactly when both the signature and the
format byte match the runner constants. -/
theorem c2_format_byte_mismatch :
    wrappe.WRAPPE_FORMAT ≠ startpe.WRAPPE_FORMAT ∧
    (startpe.checkInfo wrappe.WRAPPE_SIGNATURE wrappe.WRAPPE_FORMAT).isOk = false ∧
    (∀ sig fmt, (startpe.checkInfo sig fmt).isOk = true ↔
      (sig = startpe.signatureBytes ∧ fmt = startpe.WRAPPE_FORMAT)) := by
  refine ⟨by decide, by rfl, ?_⟩
  intro sig fmt
  unfold startpe.checkInfo
  by_cases hs : sig = startpe.signatureBytes
  · by_cases hf : fmt = startpe.WRAPPE_FORMAT
    · simp [hs, hf, Except.isOk, Except.toBool]
    · simp [hs, hf, Except.isOk, Except.toBool]
  · simp [hs, Except.isOk, Except.toBool]

/-- C2 witness: a starter info carrying the runner signature and format
byte 203 passes the gate. -/
theorem c2_format_byte_mismatch_witness :
    (startpe.checkInfo startpe.signatureBytes 203).isOk = true :=
  (c2_format_byte_mismatch.2.2 startpe.signatureBytes 203).mpr ⟨rfl, rfl⟩

namespace startpe

/-- src/startpe/src/versioning.rs lines 8-10: the sentinel content when it
could be read, defaulting to "0" when missing or unreadable. -/
def getVersion (sentinel : Option String) : String :=
  sentinel.getD "0"

/-- src/startpe/src/main.rs lines 248-252: the initial extraction decision
from the versioning byte and the sentinel comparison. -/
def shouldExtractInit (versioning : Nat) (stored uid : String) : Bool :=
  match versioning with
  | 0 => stored != uid
  | 1 => stored != uid
  | _ => true

/-- src/startpe/src/main.rs lines 254-258: the verification level passed to
the decompression engine: kept when not extracting, zero otherwise. -/
def verificationEffective (verification : Nat) (should_extract : Bool) : Nat :=
  if should_extract = false then verification else 0

/-- src/startpe/src/decompress.rs lines 207-259: the file verify pass
replaces should_extract by the negated conjunction of the per-file checks
when verification is on, extraction is not yet decided and file records
exist; the per-record check outcomes are a parameter (they depend on the
file system). -/
def verifyFilesPass (verification : Nat) (s0 : Bool) (fileOks : List Bool) : Bool :=
  if 0 < verification ∧ s0 = false ∧ fileOks ≠ [] then !(fileOks.all id) else s0

/-- src/startpe/src/decompress.rs lines 262-317: the symlink verify pass,
same shape as the file pass. -/
def verifySymlinksPass (verification : Nat) (s1 : Bool) (linkOks : List Bool) : Bool :=
  if 0 < verification ∧ s1 = false ∧ linkOks ≠ [] then !(linkOks.all id) else s1

/-- src/startpe/src/decompress.rs lines 207-319 and 529: the final
should_extract flag after both verify passes; this flag gates the extract
block and is also the return value of decompress. -/
def decompressShouldExtract (verification : Nat) (s0 : Bool)
    (fileOks linkOks : List Bool) : Bool :=
  verifySymlinksPass verification (verifyFilesPass verification s0 fileOks) linkOks

end startpe

/-- C6 counterexample: a starter info with versioning byte 3 and a sentinel
equal to the package UID makes the runner extract, although the claim
condition (versioning is 2, or versioning in 0 or 1 with differing UID) is
false: the code treats every versioning value other than 0 and 1 as
always-extract, not only the value 2. -/
theorem c6_counterexample :
    startpe.shouldExtractInit 3 "x" "x" = true ∧
    decide ((3 : Nat) = 2 ∨ (((3 : Nat) = 0 ∨ (3 : Nat) = 1) ∧ ("x" : String) ≠ "x")) = false := by
  constructor
  · rfl
  · decide

/-- C6 amended: should_extract is true exactly when the versioning byte is
neither 0 nor 1, or the stored sentinel differs from the package UID; a
missing or unreadable sentinel reads as "0"; and when should_extract is
false and verification is positive, any failing file or symlink check
flips the flag to true, which performs extraction. -/
theorem c6_extraction_decision :
    (∀ v : Nat, ∀ stored uid : String,
      startpe.shouldExtractInit v stored uid = true ↔
        (¬ (v = 0 ∨ v = 1) ∨ stored ≠ uid)) ∧
    startpe.getVersion none = "0" ∧
    (∀ verification : Nat, ∀ fileOks linkOks : List Bool,
      0 < verification →
      ¬ (fileOks.all id = true ∧ linkOks.all id = true) →
      startpe.decompressShouldExtract verification false fileOks linkOks = true) := by
  refine ⟨?_, rfl, ?_⟩
  · intro v stored uid
    match v with
    | 0 => simp [startpe.shouldExtractInit, bne_iff_ne]
    | 1 => simp [startpe.shouldExtractInit, bne_iff_ne]
    | (n + 2) => simp [startpe.shouldExtractInit]
  · intro verification fileOks linkOks hv hfail
    by_cases hfa : fileOks.all id = true
    · have hs1 : startpe.verifyFilesPass verification false fileOks = false := by
        unfold startpe.verifyFilesPass
        by_cases hfe : fileOks = []
        · rw [if_neg]
          intro h
          exact h.2.2 hfe
        · rw [if_pos ⟨hv, rfl, hfe⟩, hfa]
          rfl
      have hla : linkOks.all id = false := by
        cases h : linkOks.all id
        · rfl
        · exact absurd ⟨hfa, h⟩ hfail
      have hlne : linkOks ≠ [] := by
        intro h
        rw [h] at hla
        exact absurd hla (by decide)
      unfold startpe.decompressShouldExtract
      rw [hs1]
      unfold startpe.verifySymlinksPass
      rw [if_pos ⟨hv, rfl, hlne⟩, hla]
      rfl
    · have hfa2 : fileOks.all id = false := by
        cases h : fileOks.all id
        · rfl
        · exact absurd h hfa
      have hfe : fileOks ≠ [] := by
        intro h
        rw [h] at hfa2
        exact absurd hfa2 (by decide)
      have hs1 : startpe.verifyFilesPass verification false fileOks = true := by
        unfold startpe.verifyFilesPass
        rw [if_pos ⟨hv, rfl, hfe⟩, hfa2]
        rfl
      unfold startpe.decompressShouldExtract
      rw [hs1]
      unfold startpe.verifySymlinksPass
      rw [if_neg]
      intro h
      exact absurd h.2.1 (by decide)

/-- C6 witness: with verification 1, extraction not yet decided and one
failing file check, the decompression engine decides to extract. -/
theorem c6_extraction_decision_witness :
    startpe.decompressShouldExtract 1 false [false] [] = true :=
  c6_extraction_decision.2.2 1 [false] [] (by decide) (by decide)

namespace wrappe

/-- src/src/compress.rs lines 182, 243 and 446: the basename length check
shared by the directory, file and symlink passes: an entry is skipped
(with an error callback) exactly when its basename byte length exceeds
NAME_SIZE; otherwise its padded 128-byte name field is emitted. -/
def emitName (name : List Nat) : Option (List Nat) :=
  if NAME_SIZE < name.length then none else some (nameField name)

/-- A directory entry handed to the enumeration pass: its root-relative
path components (empty for the source root itself) and whether it is the
excluded output file. -/
structure SrcEntry where
  comps : List String
  excluded : Bool

/-- An emitted directory record: basename and parent index into the
parents accumulator. -/
structure DirRec where
  base : String
  parent : Nat
deriving DecidableEq

/-- First position of a string in a list (Iterator::position). -/
def posOf : List String → String → Option Nat
  | [], _ => none
  | x :: xs, y => if x = y then some 0 else (posOf xs y).map (· + 1)

/-- State of the sequential directory pass: the parents path accumulator
(seeded with the empty root path), the emitted records, and the number of
error callbacks. -/
structure DirState where
  parents : List String
  dirs : List DirRec
  errors : Nat

/-- src/src/compress.rs lines 168-219: one step of the directory pass.
The excluded check precedes everything; the source root (empty relative
path) is skipped silently; the basename length check precedes the push of
the root-relative path into the parents accumulator; the parent lookup
happens only after that push, so a skip caused by a missing parent leaves
the pushed path behind. -/
def dirStep (st : DirState) (e : SrcEntry) : DirState :=
  if e.excluded then { st with errors := st.errors + 1 }
  else
    match e.comps with
    | [] => st
    | _ :: _ =>
      let base := e.comps.getLastD ""
      if NAME_SIZE < base.utf8ByteSize then { st with errors := st.errors + 1 }
      else
        let parents2 := st.parents ++ [String.intercalate "/" e.comps]
        match posOf parents2 (String.intercalate "/" e.comps.dropLast) with
        | some k =>
          { parents := parents2, dirs := st.dirs ++ [⟨base, k⟩], errors := st.errors }
        | none => { st with parents := parents2, errors := st.errors + 1 }

/-- src/src/compress.rs lines 163-219: the whole sequential directory
pass, starting from the root-only accumulator. -/
def dirPass (es : List SrcEntry) : DirState :=
  es.foldl dirStep { parents := [""], dirs := [], errors := 0 }

/-- The claimed invariant: in the root-prefixed directory array (record i
sits at index i + 1) every parent field is strictly smaller than the
record index. -/
def topoOK (dirs : List DirRec) : Prop :=
  ∀ i : Fin dirs.length, (dirs.get i).parent < i.val + 1

instance (dirs : List DirRec) : Decidable (topoOK dirs) := by
  unfold topoOK
  infer_instance

end wrappe

/-- C8 counterexample: a basename of exactly 128 bytes is not skipped by
the build-time check (which rejects only lengths above NAME_SIZE = 128),
and its stored name field is the full 128 bytes with no terminating NUL,
contradicting the claimed bound of NAME_SIZE - 1 = 127. -/
theorem c8_counterexample :
    wrappe.emitName (List.replicate 128 97) = some (List.replicate 128 97) ∧
    decide ((List.replicate 128 97 : List Nat).length ≤ 127) = false ∧
    decide (0 ∈ (List.replicate 128 97 : List Nat)) = false := by
  refine ⟨by rfl, by decide, by decide⟩

/-- C8 amended: an entry is skipped exactly when its basename exceeds
NAME_SIZE = 128 bytes (not 127); every emitted name field is the basename
padded with NULs to 128 bytes, so stored basenames are at most 128 bytes
long and a 128-byte basename fills the field with no terminating NUL. -/
theorem c8_basename_limit (name : List Nat) :
    (wrappe.emitName name = none ↔ 128 < name.length) ∧
    (∀ arr, wrappe.emitName name = some arr →
      name.length ≤ 128 ∧ arr = name ++ List.replicate (128 - name.length) 0 ∧
        arr.length = 128) := by
  constructor
  · unfold wrappe.emitName wrappe.NAME_SIZE
    by_cases h : 128 < name.length
    · simp [h]
    · simp [h]
  · intro arr harr
    unfold wrappe.emitName wrappe.NAME_SIZE at harr
    by_cases h : 128 < name.length
    · rw [if_pos h] at harr
      exact absurd harr (by simp)
    · rw [if_neg h] at harr
      have hle : name.length ≤ 128 := Nat.le_of_not_lt h
      have harr2 : arr = wrappe.nameField name := by
        injection harr with h2
        exact h2.symm
      refine ⟨hle, ?_, ?_⟩
      · rw [harr2]
        rfl
      · rw [harr2]
        unfold wrappe.nameField wrappe.NAME_SIZE
        rw [List.length_append, List.length_replicate]
        omega

/-- C8 witness: a one-byte basename passes the check and is stored padded
to the full 128-byte field. -/
theorem c8_basename_limit_witness :
    ([97] : List Nat).length ≤ 128 ∧
    wrappe.nameField [97] = [97] ++ List.replicate (128 - ([97] : List Nat).length) 0 ∧
    (wrappe.nameField [97]).length = 128 :=
  (c8_basename_limit [97]).2 (wrappe.nameField [97]) (by rfl)

/-- The 129-byte directory name that the packer skips at build time. -/
def c9long : String := String.mk (List.replicate 129 'L')

/-- Source tree triggering the parent-order violation: directory A is
emitted; the long-named directory is skipped before being recorded; its
child c is skipped for lack of an included parent but is still pushed into
the parents accumulator; grandchild d is then emitted with the phantom
parent index. -/
def c9entries : List wrappe.SrcEntry :=
  [{ comps := ["A"], excluded := false },
   { comps := [c9long], excluded := false },
   { comps := [c9long, "c"], excluded := false },
   { comps := [c9long, "c", "d"], excluded := false }]

/-- C9: Topological parent order fails on this code: on the tree above the
packer emits two directory records, A with parent 0 and d with parent 2,
and record d sits at root-prefixed index 2 itself, so its parent field is
not strictly smaller than its own index; the runner's sequential path
reconstruction would index an entry that does not exist yet. -/
theorem c9_parent_order_violated :
    (wrappe.dirPass c9entries).dirs =
      [{ base := "A", parent := 0 }, { base := "d", parent := 2 }] ∧
    decide (wrappe.topoOK
      [{ base := "A", parent := 0 }, { base := "d", parent := 2 }]) = false := by
  constructor
  · rfl
  · decide

namespace startpe

/-- Observable runner actions, in program order of src/startpe/src/main.rs:
creating the unpack directory, acquiring and releasing the lockfile, the
optional single-instance check, calling the decompression engine (which is
the only site parsing the trailer, sections and blob and the only writer
of the version sentinel), and spawning the entry command. -/
inductive REffect
  | createUnpackDir
  | lockAcquire
  | instanceCheck
  | callDecompress
  | writeSentinel
  | lockRelease
  | spawn
deriving DecidableEq

/-- The starter-info fields that drive the bootstrap decisions. -/
structure RInfo where
  signature : List Nat
  verification : Nat
  uid : String
  versioning : Nat
  once : Nat
  wrappe_format : Nat

/-- src/startpe/src/main.rs lines 99-360: the bootstrap flow from the
starter-info validation to the spawn, as a trace of effects plus a flag
telling whether the entry command was spawned.  The sentinel content, the
lockfile availability and the single-instance probe are parameters (they
depend on the environment); early clean exits return a trace with the
flag false. -/
def runnerMain (info : RInfo) (sentinel : Option String) (lockAvailable : Bool)
    (instanceRunning : Bool) : Except String (List REffect × Bool) :=
  if info.signature ≠ signatureBytes then .error "file signature is invalid"
  else if info.wrappe_format ≠ WRAPPE_FORMAT then
    .error "runner version differs from wrapper version"
  else
    let acc := [REffect.createUnpackDir]
    if info.once = 1 ∧ lockAvailable = false then .ok (acc, false)
    else
      let acc := acc ++ [REffect.lockAcquire]
      if info.once = 1 ∧ instanceRunning then .ok (acc ++ [REffect.instanceCheck], false)
      else
        let acc := if info.once = 1 then acc ++ [REffect.instanceCheck] else acc
        let should_extract := shouldExtractInit info.versioning (getVersion sentinel) info.uid
        let verification := verificationEffective info.verification should_extract
        let acc :=
          if should_extract || decide (0 < verification) then
            acc ++ [REffect.callDecompress]
          else acc
        .ok (acc ++ [REffect.lockRelease, REffect.spawn], true)

end startpe

/-- C10: Warm-start frame: when versioning is 0 or 1, the sentinel equals
the package UID and verification is 0 (and the launch is undisturbed:
valid signature and format, lock available, no other instance), the
bootstrap never calls the decompression engine and never writes the
sentinel; its only effects are creating the unpack directory, taking and
releasing the lockfile and the optional instance probe, and it proceeds to
spawning the entry command. -/
theorem c10_warm_start_frame (info : startpe.RInfo) (sentinel : Option String)
    (hsig : info.signature = startpe.signatureBytes)
    (hfmt : info.wrappe_format = startpe.WRAPPE_FORMAT)
    (hver : info.versioning = 0 ∨ info.versioning = 1)
    (huid : startpe.getVersion sentinel = info.uid)
    (hverif : info.verification = 0) :
    ∃ effs, startpe.runnerMain info sentinel true false = .ok (effs, true) ∧
      startpe.REffect.callDecompress ∉ effs ∧
      startpe.REffect.writeSentinel ∉ effs ∧
      ∀ e ∈ effs, e = startpe.REffect.createUnpackDir ∨
        e = startpe.REffect.lockAcquire ∨ e = startpe.REffect.instanceCheck ∨
        e = startpe.REffect.lockRelease ∨ e = startpe.REffect.spawn := by
  have hse : startpe.shouldExtractInit info.versioning (startpe.getVersion sentinel)
      info.uid = false := by
    rcases hver with h | h <;>
      simp [h, startpe.shouldExtractInit, huid]
  have hcall : (startpe.shouldExtractInit info.versioning (startpe.getVersion sentinel)
      info.uid ||
      decide (0 < startpe.verificationEffective info.verification
        (startpe.shouldExtractInit info.versioning (startpe.getVersion sentinel)
          info.uid))) = false := by
    rw [hse]
    simp [startpe.verificationEffective, hverif]
  unfold startpe.runnerMain
  rw [if_neg (by simp [hsig]), if_neg (by simp [hfmt]),
    if_neg (by simp : ¬(info.once = 1 ∧ (true : Bool) = false)),
    if_neg (by simp : ¬(info.once = 1 ∧ (false : Bool) = true))]
  by_cases ho : info.once = 1
  · refine ⟨[startpe.REffect.createUnpackDir, startpe.REffect.lockAcquire,
      startpe.REffect.instanceCheck, startpe.REffect.lockRelease,
      startpe.REffect.spawn], ?_, by decide, by decide, by decide⟩
    simp [ho, hcall]
  · refine ⟨[startpe.REffect.createUnpackDir, startpe.REffect.lockAcquire,
      startpe.REffect.lockRelease, startpe.REffect.spawn],
      ?_, by decide, by decide, by decide⟩
    simp [ho, hcall]

/-- C10 witness: a concrete warm start with versioning 0, matching
sentinel abc and verification 0 spawns without decompressing. -/
theorem c10_warm_start_frame_witness :
    ∃ effs, startpe.runnerMain
        { signature := startpe.signatureBytes, verification := 0, uid := "abc",
          versioning := 0, once := 0, wrappe_format := startpe.WRAPPE_FORMAT }
        (some "abc") true false = .ok (effs, true) ∧
      startpe.REffect.callDecompress ∉ effs ∧
      startpe.REffect.writeSentinel ∉ effs ∧
      ∀ e ∈ effs, e = startpe.REffect.createUnpackDir ∨
        e = startpe.REffect.lockAcquire ∨ e = startpe.REffect.instanceCheck ∨
        e = startpe.REffect.lockRelease ∨ e = startpe.REffect.spawn :=
  c10_warm_start_frame _ (some "abc") rfl rfl (Or.inl rfl) rfl rfl

namespace wrappe

/-- Fold of the streaming hasher over a list of record byte strings, one
hasher.write call per record (compress.rs lines 587-598). -/
def hashFold {σ : Type} (H : HasherImpl σ) (s : σ) (recs : List (List Nat)) : σ :=
  recs.foldl H.writeH s

/-- src/src/compress.rs lines 583-605: the section_hash stored in the
trailer: the hasher is seeded with HASH_SEED and fed the directory, file
and symlink record bytes in this order while they are written out. -/
def sectionHash {σ : Type} (H : HasherImpl σ) (dirs files links : List (List Nat)) : Nat :=
  H.finishH (hashFold H (hashFold H (hashFold H (H.initH HASH_SEED) dirs) files) links)

/-- One emitted file record, restricted to the fields the hash claims are
about (src/src/types.rs lines 45-58). -/
structure FileRecM where
  position : Nat
  fsize : Nat
  file_hash : Nat
  compressed_hash : Nat
deriving DecidableEq

/-- src/src/compress.rs lines 268-424 (in-memory path): one file job: the
content is encoded, the pre-write archive offset is recorded as position,
the encoded bytes are appended under the archive lock while being hashed
into compressed_hash, and the source bytes feed file_hash.  The encoder is
a parameter (the external zstd library). -/
def filePassStep {σ : Type} (H : HasherImpl σ) (enc : List Nat → List Nat)
    (st : List Nat × List FileRecM) (c : List Nat) : List Nat × List FileRecM :=
  (st.1 ++ enc c,
    st.2 ++ [{ position := st.1.length, fsize := (enc c).length,
               file_hash := hashBytes H HASH_SEED c,
               compressed_hash := hashBytes H HASH_SEED (enc c) }])

/-- src/src/compress.rs lines 230-428: the file pass over the source
contents, starting from an empty payload region (offsets in the records
are relative to the payload start, position = start - zero). -/
def filePass {σ : Type} (H : HasherImpl σ) (enc : List Nat → List Nat)
    (contents : List (List Nat)) : List Nat × List FileRecM :=
  contents.foldl (filePassStep H enc) ([], [])

end wrappe

namespace startpe

/-- src/startpe/src/decompress.rs lines 100-198: the runner recomputes the
section hash by feeding every carved record chunk to a hasher seeded with
HASH_SEED and panics when the result differs from the stored value. -/
def sectionHashCheck {σ : Type} (H : HasherImpl σ) (stored : Nat)
    (secs : List (List Nat)) : Except String Unit :=
  if H.finishH (secs.foldl H.writeH (H.initH HASH_SEED)) ≠ stored then
    .error "section hash differs from expected section hash"
  else .ok ()

/-- src/startpe/src/decompress.rs lines 350-382: during extraction the
compressed byte range of a file is hashed while being decoded and the
runner panics when the result differs from the record compressed_hash. -/
def compressedHashCheck {σ : Type} (H : HasherImpl σ) (expected : Nat)
    (range : List Nat) : Except String Unit :=
  if expected ≠ hashBytes H HASH_SEED range then
    .error "compressed file hash differs from expected hash"
  else .ok ()

end startpe

/-- A lawful hasher turns a record-by-record fold into one write of the
concatenation. -/
theorem hashFold_flatten {σ : Type} (H : HasherImpl σ) (hlaw : HasherLaw H) :
    ∀ (recs : List (List Nat)) (s : σ),
      recs.foldl H.writeH s = H.writeH s recs.flatten := by
  intro recs
  induction recs with
  | nil =>
    intro s
    exact (hlaw.2 s).symm
  | cons r rs ih =>
    intro s
    show rs.foldl H.writeH (H.writeH s r) = _
    rw [ih (H.writeH s r), hlaw.1]
    rfl

/-- Slices lying inside the first summand are unchanged by an append. -/
theorem sliceAt_append_of_inside (a b : List Nat) (p n : Nat)
    (h : p + n ≤ a.length) : sliceAt (a ++ b) p n = sliceAt a p n := by
  unfold sliceAt
  rw [List.drop_append_of_le_length (by omega),
    List.take_append_of_le_length (by simp; omega)]

/-- The slice of the freshly appended data. -/
theorem sliceAt_append_self (a b : List Nat) :
    sliceAt (a ++ b) a.length b.length = b := by
  unfold sliceAt
  rw [List.drop_left, List.take_length]

/-- Invariant of the file pass: there is one record per content, every
record range lies inside the payload region, its compressed_hash is the
hash of that byte range, and its file_hash is the hash of the content. -/
theorem filePass_records {σ : Type} (H : HasherImpl σ) (enc : List Nat → List Nat)
    (contents : List (List Nat)) :
    (wrappe.filePass H enc contents).2.length = contents.length ∧
    ∀ p ∈ (wrappe.filePass H enc contents).2.zip contents,
      p.1.position + p.1.fsize ≤ (wrappe.filePass H enc contents).1.length ∧
      p.1.compressed_hash = hashBytes H wrappe.HASH_SEED
        (sliceAt (wrappe.filePass H enc contents).1 p.1.position p.1.fsize) ∧
      p.1.file_hash = hashBytes H wrappe.HASH_SEED p.2 := by
  induction contents using List.reverseRecOn with
  | nil =>
    constructor
    · rfl
    · intro p hp
      exact absurd hp (by simp [wrappe.filePass])
  | append_singleton cs c ih =>
    have hstep : wrappe.filePass H enc (cs ++ [c]) =
        wrappe.filePassStep H enc (wrappe.filePass H enc cs) c := by
      unfold wrappe.filePass
      rw [List.foldl_append]
      rfl
    obtain ⟨ihlen, ihrec⟩ := ih
    constructor
    · rw [hstep]
      unfold wrappe.filePassStep
      simp [ihlen]
    · intro p hp
      rw [hstep] at hp
      unfold wrappe.filePassStep at hp
      rw [List.zip_append (by simp [ihlen])] at hp
      rw [List.mem_append] at hp
      rcases hp with hp | hp
      · obtain ⟨hin, hh1, hh2⟩ := ihrec p hp
        rw [hstep]
        unfold wrappe.filePassStep
        refine ⟨by simp; omega, ?_, hh2⟩
        rw [sliceAt_append_of_inside _ _ _ _ hin]
        exact hh1
      · simp only [List.zip_cons_cons, List.zip_nil_right, List.mem_singleton] at hp
        rw [hstep]
        unfold wrappe.filePassStep
        subst hp
        refine ⟨by simp, ?_, rfl⟩
        rw [sliceAt_append_self]

/-- C5: Hash integrity: both sides seed xxHash64 with the same constant
1246736989840; the stored section_hash is the hash of the raw section
bytes in order directories, files, symlinks; every emitted file record
carries the hash of its own compressed byte range inside the payload
region and the hash of its uncompressed content; the runner errors exactly
when its recomputed section hash differs from the stored one, and errors
during extraction whenever the compressed-range hash differs from the
record compressed_hash.  Quantified over every lawful streaming hasher. -/
theorem c5_hash_integrity {σ : Type} (H : HasherImpl σ) (hlaw : HasherLaw H) :
    wrappe.HASH_SEED = 1246736989840 ∧
    startpe.HASH_SEED = wrappe.HASH_SEED ∧
    (∀ dirs files links : List (List Nat),
      wrappe.sectionHash H dirs files links =
        hashBytes H wrappe.HASH_SEED (wrappe.sectionsRawBytes dirs files links)) ∧
    (∀ (enc : List Nat → List Nat) (contents : List (List Nat)),
      (wrappe.filePass H enc contents).2.length = contents.length ∧
      ∀ p ∈ (wrappe.filePass H enc contents).2.zip contents,
        p.1.compressed_hash = hashBytes H wrappe.HASH_SEED
          (sliceAt (wrappe.filePass H enc contents).1 p.1.position p.1.fsize) ∧
        p.1.file_hash = hashBytes H wrappe.HASH_SEED p.2) ∧
    (∀ (stored : Nat) (secs : List (List Nat)),
      (startpe.sectionHashCheck H stored secs).isOk = false ↔
        hashBytes H startpe.HASH_SEED secs.flatten ≠ stored) ∧
    (∀ (expected : Nat) (range : List Nat),
      expected ≠ hashBytes H startpe.HASH_SEED range →
        (startpe.compressedHashCheck H expected range).isOk = false) := by
  refine ⟨rfl, rfl, ?_, ?_, ?_, ?_⟩
  · intro dirs files links
    unfold wrappe.sectionHash wrappe.hashFold
    rw [hashFold_flatten H hlaw, hashFold_flatten H hlaw, hashFold_flatten H hlaw,
      hlaw.1, hlaw.1]
    unfold hashBytes wrappe.sectionsRawBytes
    rw [← List.append_assoc]
  · intro enc contents
    obtain ⟨hlen, hrec⟩ := filePass_records H enc contents
    exact ⟨hlen, fun p hp => ⟨(hrec p hp).2.1, (hrec p hp).2.2⟩⟩
  · intro stored secs
    unfold startpe.sectionHashCheck
    rw [hashFold_flatten H hlaw]
    by_cases h : H.finishH (H.writeH (H.initH startpe.HASH_SEED) secs.flatten) = stored
    · rw [if_neg (by simp [h])]
      simp [Except.isOk, Except.toBool, hashBytes, h]
    · rw [if_pos (by simp [h])]
      simp [Except.isOk, Except.toBool, hashBytes, h]
  · intro expected range h
    unfold startpe.compressedHashCheck
    rw [if_pos h]
    rfl

/-- A concrete lawful hasher used to instantiate the hash claims: the
state accumulates the exact byte stream. -/
def listHasher : HasherImpl (List Nat) :=
  { initH := fun seed => [seed], writeH := fun s a => s ++ a,
    finishH := fun s => s.length }

/-- The list hasher satisfies the streaming laws. -/
theorem listHasherLaw : HasherLaw listHasher := by
  constructor
  · intro s a b
    show s ++ a ++ b = s ++ (a ++ b)
    exact List.append_assoc s a b
  · intro s
    show s ++ [] = s
    exact List.append_nil s

/-- C5 witness: the section hash stored for one directory record and one
symlink record is the hash of the concatenated raw bytes, at the concrete
list hasher. -/
theorem c5_hash_integrity_witness :
    wrappe.sectionHash listHasher [[1, 2]] [] [[3]] =
      hashBytes listHasher wrappe.HASH_SEED
        (wrappe.sectionsRawBytes [[1, 2]] [] [[3]]) :=
  (c5_hash_integrity listHasher listHasherLaw).2.2.1 [[1, 2]] [] [[3]]

namespace startpe

/-- size_of StarterInfo (src/startpe/src/types.rs lines 11-26): signature 8,
four policy bytes, uid 16, five policy bytes, unpack_directory 128,
command 128, arguments 512. -/
def infoSize : Nat := 8 + 1 + 1 + 1 + 1 + 16 + 1 + 1 + 1 + 1 + 1 + 128 + 128 + 512

/-- Backward search step of memmem rfind: try position k, then k - 1, down
to 0; a position matches when the pattern-sized slice there equals the
pattern. -/
def rfindAux (hay pat : List Nat) : Nat → Option Nat
  | 0 => if sliceAt hay 0 pat.length = pat then some 0 else none
  | k + 1 =>
    if sliceAt hay (k + 1) pat.length = pat then some (k + 1) else rfindAux hay pat k

/-- memmem rfind as used in src/startpe/src/main.rs line 109: position of
the last occurrence of pat inside hay. -/
def rfind (hay pat : List Nat) : Option Nat :=
  if pat.length ≤ hay.length then rfindAux hay pat (hay.length - pat.length) else none

/-- An occurrence of the 8-byte signature at position i of the mapping. -/
def occursAt (m : List Nat) (i : Nat) : Prop :=
  sliceAt m i 8 = signatureBytes

instance (m : List Nat) (i : Nat) : Decidable (occursAt m i) := by
  unfold occursAt
  infer_instance

/-- src/startpe/src/main.rs lines 98-122: discovery of the starter-info
offset inside the mapped image: the fast path reads at len - infoSize when
the signature sits there; otherwise the last occurrence of the signature
is used; the chosen offset must leave room for a whole record. -/
def findStarterInfo (m : List Nat) : Except String Nat :=
  if m.length < infoSize then .error "file is too small"
  else
    let tailStart := m.length - infoSize
    if sliceAt m tailStart 8 = signatureBytes then
      if tailStart + infoSize > m.length then .error "starter info is too small"
      else .ok tailStart
    else
      match rfind m signatureBytes with
      | some p =>
        if p + infoSize > m.length then .error "starter info is too small"
        else .ok p
      | none => .error "couldn't find starter info"

end startpe

/-- The backward search returns none when no position up to k matches. -/
theorem rfindAux_eq_none (hay pat : List Nat) (k : Nat)
    (h : ∀ q, q ≤ k → sliceAt hay q pat.length ≠ pat) :
    startpe.rfindAux hay pat k = none := by
  induction k with
  | zero =>
    unfold startpe.rfindAux
    rw [if_neg (h 0 (Nat.le_refl 0))]
  | succ k ih =>
    unfold startpe.rfindAux
    rw [if_neg (h (k + 1) (Nat.le_refl _))]
    exact ih fun q hq => h q (Nat.le_succ_of_le hq)

/-- The backward search returns the greatest matching position. -/
theorem rfindAux_eq_some (hay pat : List Nat) (k p : Nat)
    (hp : sliceAt hay p pat.length = pat) (hpk : p ≤ k)
    (hmax : ∀ q, p < q → sliceAt hay q pat.length ≠ pat) :
    startpe.rfindAux hay pat k = some p := by
  induction k with
  | zero =>
    have hp0 : p = 0 := Nat.le_zero.mp hpk
    subst hp0
    unfold startpe.rfindAux
    rw [if_pos hp]
  | succ k ih =>
    by_cases hk : p = k + 1
    · subst hk
      unfold startpe.rfindAux
      rw [if_pos hp]
    · have hle : p ≤ k := Nat.lt_succ_iff.mp (Nat.lt_of_le_of_ne hpk hk)
      unfold startpe.rfindAux
      rw [if_neg (hmax (k + 1) (Nat.lt_succ_of_le hle))]
      exact ih hle

/-- An occurrence of the signature needs 8 bytes of room. -/
theorem occursAt_le (m : List Nat) (i : Nat) (h : startpe.occursAt m i) :
    i + 8 ≤ m.length := by
  unfold startpe.occursAt at h
  have hlen : (sliceAt m i 8).length = 8 := by
    rw [h]
    rfl
  unfold sliceAt at hlen
  rw [List.length_take, List.length_drop] at hlen
  omega

/-- C7 amended: for every mapped image with room for a starter info
record, the runner reads the record at len - infoSize when the assembled
8-byte signature sits there; otherwise it reads it at the last occurrence
of the signature provided the record fits there, fails with the
too-small error when the last occurrence leaves no room for a whole
record, and fails with the not-found error when no occurrence exists; the
assembled pattern is exactly 50 45 33 44 41 54 41 00. -/
theorem c7_starter_info_discovery (m : List Nat) (hlen : startpe.infoSize ≤ m.length) :
    startpe.signatureBytes = [0x50, 0x45, 0x33, 0x44, 0x41, 0x54, 0x41, 0x00] ∧
    (sliceAt m (m.length - startpe.infoSize) 8 = startpe.signatureBytes →
      startpe.findStarterInfo m = .ok (m.length - startpe.infoSize)) ∧
    (sliceAt m (m.length - startpe.infoSize) 8 ≠ startpe.signatureBytes →
      ((∀ i, ¬ startpe.occursAt m i) →
        startpe.findStarterInfo m = .error "couldn't find starter info") ∧
      (∀ p, startpe.occursAt m p → (∀ q, p < q → ¬ startpe.occursAt m q) →
        (p + startpe.infoSize ≤ m.length → startpe.findStarterInfo m = .ok p) ∧
        (m.length < p + startpe.infoSize →
          startpe.findStarterInfo m = .error "starter info is too small"))) := by
  have hnotlt : ¬ m.length < startpe.infoSize := Nat.not_lt.mpr hlen
  have hsiglen : startpe.signatureBytes.length = 8 := rfl
  have hinfo : startpe.infoSize = 801 := rfl
  refine ⟨rfl, ?_, ?_⟩
  · intro htail
    unfold startpe.findStarterInfo
    rw [if_neg hnotlt, if_pos htail, if_neg (by omega)]

  · intro htail
    constructor
    · intro hnone
      unfold startpe.findStarterInfo
      rw [if_neg hnotlt, if_neg htail]
      have hrf : startpe.rfind m startpe.signatureBytes = none := by
        unfold startpe.rfind
        rw [if_pos (by omega)]
        apply rfindAux_eq_none
        intro q hq
        rw [hsiglen]
        exact hnone q
      rw [hrf]
    · intro p hp hmax
      have hple : p + 8 ≤ m.length := occursAt_le m p hp
      have hrf : startpe.rfind m startpe.signatureBytes = some p := by
        unfold startpe.rfind
        rw [if_pos (by omega)]
        apply rfindAux_eq_some
        · rw [hsiglen]
          exact hp
        · omega
        · intro q hq
          rw [hsiglen]
          exact hmax q hq
      constructor
      · intro hfit
        unfold startpe.findStarterInfo
        rw [if_neg hnotlt, if_neg htail, hrf]
        dsimp only
        rw [if_neg (by omega)]
      · intro hnofit
        unfold startpe.findStarterInfo
        rw [if_neg hnotlt, if_neg htail, hrf]
        dsimp only
        rw [if_pos (by omega)]

/-- Image whose starter info sits exactly at the tail: the signature
followed by 793 zero bytes (length 801 = infoSize). -/
def c7goodImg : List Nat := startpe.signatureBytes ++ List.replicate 793 0

/-- C7 witness: on the tail-aligned image the runner reads the record at
offset len - infoSize = 0. -/
theorem c7_starter_info_discovery_witness :
    startpe.findStarterInfo c7goodImg =
      Except.ok (c7goodImg.length - startpe.infoSize) :=
  (c7_starter_info_discovery c7goodImg (by decide)).2.1 (by decide)

/-- Image of exactly record size whose only signature occurrence sits at
offset 1: a zero byte, the signature, then 792 zero bytes. -/
def c7badImg : List Nat := 0 :: (startpe.signatureBytes ++ List.replicate 792 0)

/-- C7 counterexample: the signature occurs (only) at offset 1 of this
801-byte image and the tail probe at offset 0 fails, yet the runner does
not read the record at the last occurrence: it fails fatally because the
record would overrun the image, a case the claim does not allow. -/
theorem c7_counterexample :
    startpe.occursAt c7badImg 1 ∧
    decide (sliceAt c7badImg (c7badImg.length - startpe.infoSize) 8 =
      startpe.signatureBytes) = false ∧
    startpe.rfind c7badImg startpe.signatureBytes = some 1 ∧
    startpe.findStarterInfo c7badImg = Except.error "starter info is too small" := by
  refine ⟨by decide, by decide, ?_, ?_⟩
  · rfl
  · rfl
